import Mathlib

/-!
Verification of the EchoSphere scheduled-publication engine.

Shallow embedding of the scheduler service, the social-media service
content validation, and the post CRUD routes, together with proofs of
the behavioural laws stated in the design document.

Conventions of the embedding:
  - timestamps are integers (milliseconds);
  - the mongoose document save sequence is made explicit as an event
    trace (SchedEvent);
  - the external publisher capability is a parameter of type Publisher
    (platform, account, payload to success or error), standing for
    socialMediaService.publishPost;
  - the audit-log store is a parameter (logOk : String to Bool) saying,
    per platform attempt, whether the SchedulerLog save succeeds;
  - post status is kept as a String, exactly as in the JavaScript
    source, where statuses are string literals.
-/

namespace EchoSphere

/-- One per-platform outcome record appended to post.results. -/
structure PlatformResult where
  platform : String
  postId : Option String := none
  url : Option String := none
  success : Bool
  error : Option String := none
  postedAt : Int
deriving DecidableEq

/-- A per-platform credential bundle (user.connectedAccounts entries). -/
structure ConnectedAccount where
  accessToken : String := ""
  username : String := ""
deriving DecidableEq

/-- The owner of a post, with the connected-account map modelled as an
association list keyed by platform name. -/
structure User where
  id : Nat
  connectedAccounts : List (String × ConnectedAccount) := []
deriving DecidableEq

/-- Post content (text body plus hashtag and mention lists). -/
structure PostContent where
  text : String
  hashtags : List String := []
  mentions : List String := []
deriving DecidableEq

/-- The unit of scheduled work, mirroring the mongoose Post document as
used by the scheduler and the routes.  The userId field carries the
populated owner record. -/
structure Post where
  id : Nat
  userId : User
  content : PostContent
  platforms : List String
  scheduledAt : Int
  status : String
  retryCount : Nat
  lastAttempt : Option Int := none
  results : List PlatformResult := []
  media : List String := []
deriving DecidableEq

/-- Successful remote publish record returned by a platform publisher. -/
structure PublishSuccess where
  postId : String
  url : String
deriving DecidableEq

/-- The content object handed to socialMediaService.publishPost. -/
structure PublishPayload where
  text : String
  hashtags : List String
  mentions : List String
  media : List String
deriving DecidableEq

/-- The external publisher capability: socialMediaService.publishPost.
It either returns a success record or throws (Except.error). -/
def Publisher : Type :=
  String → ConnectedAccount → PublishPayload → Except String PublishSuccess

/-- scheduler.publishToPlatform: resolve the connected account of the
owner for the platform; if absent throw "account not connected",
otherwise call the social media service. -/
def publishToPlatform (svc : Publisher) (post : Post) (platform : String) :
    Except String PublishSuccess :=
  match post.userId.connectedAccounts.lookup platform with
  | none => Except.error (platform ++ " account not connected for user")
  | some accountInfo =>
      svc platform accountInfo
        { text := post.content.text
          hashtags := post.content.hashtags
          mentions := post.content.mentions
          media := post.media }

/-- One SchedulerLog document. -/
structure SchedulerLogEntry where
  postId : Nat
  platform : String
  status : String
  response : Option PublishSuccess := none
  errorMessage : Option String := none
deriving DecidableEq

/-- The underlying SchedulerLog save, which can fail (log.save()). -/
def saveSchedulerLog (storeOk : Bool) (entry : SchedulerLogEntry) :
    Except String SchedulerLogEntry :=
  if storeOk then Except.ok entry else Except.error ("log save failed")

/-- scheduler.logPublishAttempt: try to save a SchedulerLog entry; a
save failure is caught and logged, never rethrown.  The value returned
is the list of entries actually persisted (empty on failure). -/
def logPublishAttempt (storeOk : Bool) (entry : SchedulerLogEntry) :
    List SchedulerLogEntry :=
  match saveSchedulerLog storeOk entry with
  | Except.ok e => [e]
  | Except.error _ => []

/-- Observable store / publish events of one publishPost run: document
saves and per-platform publish attempts, in program order. -/
inductive SchedEvent where
  | save (post : Post)
  | attempt (platform : String)
deriving DecidableEq

/-- Accumulator of the per-platform loop inside publishPost. -/
structure LoopState where
  post : Post
  successCount : Nat
  failureCount : Nat
  logs : List SchedulerLogEntry
  events : List SchedEvent

/-- The for-loop of scheduler.publishPost over post.platforms: publish,
log the attempt, append one PlatformResult, bump the matching counter. -/
def publishLoop (svc : Publisher) (logOk : String → Bool) (now : Int) :
    LoopState → List String → LoopState
  | st, [] => st
  | st, platform :: rest =>
    match publishToPlatform svc st.post platform with
    | Except.ok result =>
        publishLoop svc logOk now
          { post := { st.post with results := st.post.results ++
              [{ platform := platform
                 postId := some result.postId
                 url := some result.url
                 success := true
                 postedAt := now }] }
            successCount := st.successCount + 1
            failureCount := st.failureCount
            logs := st.logs ++ logPublishAttempt (logOk platform)
              { postId := st.post.id
                platform := platform
                status := "success"
                response := some result }
            events := st.events ++ [SchedEvent.attempt platform] } rest
    | Except.error msg =>
        publishLoop svc logOk now
          { post := { st.post with results := st.post.results ++
              [{ platform := platform
                 success := false
                 error := some msg
                 postedAt := now }] }
            successCount := st.successCount
            failureCount := st.failureCount + 1
            logs := st.logs ++ logPublishAttempt (logOk platform)
              { postId := st.post.id
                platform := platform
                status := "failed"
                errorMessage := some msg }
            events := st.events ++ [SchedEvent.attempt platform] } rest

/-- Result of one scheduler.publishPost run: the final persisted post,
the audit-log entries persisted, and the event trace. -/
structure PublishRun where
  finalPost : Post
  logs : List SchedulerLogEntry
  events : List SchedEvent

/-- The status / retry policy applied by publishPost after the loop:
any success gives posted (also on partial success); zero successes bump
retryCount and either reschedule 15 minutes later (retryCount below 3)
or leave the post failed. -/
def applyStatusPolicy (now : Int) (st : LoopState) : Post :=
  if 0 < st.successCount ∧ st.failureCount = 0 then
    { st.post with status := "posted" }
  else if 0 < st.successCount ∧ 0 < st.failureCount then
    { st.post with status := "posted" }
  else
    let p : Post := { st.post with
                      status := "failed"
                      retryCount := st.post.retryCount + 1 }
    if p.retryCount < 3 then
      { p with status := "scheduled", scheduledAt := now + 15 * 60 * 1000 }
    else p

/-- scheduler.publishPost: persist status posting with lastAttempt now,
attempt every target platform, then apply the status / retry policy and
persist the final state. -/
def publishPost (svc : Publisher) (logOk : String → Bool) (now : Int)
    (post : Post) : PublishRun :=
  let posting : Post := { post with status := "posting", lastAttempt := some now }
  let st := publishLoop svc logOk now
    { post := posting
      successCount := 0
      failureCount := 0
      logs := []
      events := [SchedEvent.save posting] } posting.platforms
  let final : Post := applyStatusPolicy now st
  { finalPost := final
    logs := st.logs
    events := st.events ++ [SchedEvent.save final] }

/-- The due-post discovery predicate of processScheduledPosts:
scheduledAt at or before now, status scheduled, retryCount below 3. -/
def isDuePost (now : Int) (p : Post) : Bool :=
  decide (p.scheduledAt ≤ now) && (p.status == "scheduled")
    && decide (p.retryCount < 3)

/-- The Post.find query of processScheduledPosts over a store of posts. -/
def findPostsToPublish (store : List Post) (now : Int) : List Post :=
  store.filter (isDuePost now)

/-- scheduler.processScheduledPosts for one tick: query the due posts
and hand each element of the returned list, in order, to publishPost.
The source loop performs no deduplication of the returned list. -/
def processScheduledPosts (svc : Publisher) (logOk : String → Bool)
    (now : Int) (store : List Post) : List (Nat × PublishRun) :=
  (findPostsToPublish store now).map
    (fun p => (p.id, publishPost svc logOk now p))

/-- The post ids handed to publishPost during one tick, in order. -/
def dispatchedIds (svc : Publisher) (logOk : String → Bool) (now : Int)
    (store : List Post) : List Nat :=
  (processScheduledPosts svc logOk now store).map Prod.fst

/-- The cron job held by the scheduler service. -/
structure CronJob where
  schedule : String
deriving DecidableEq

/-- Observable state of the SchedulerService singleton. -/
structure SchedulerState where
  isRunning : Bool
  cronJob : Option CronJob
deriving DecidableEq

/-- scheduler.start: no-op when already running, otherwise install the
every-minute cron job and mark running. -/
def start (s : SchedulerState) : SchedulerState :=
  if s.isRunning then s
  else { isRunning := true, cronJob := some { schedule := "* * * * *" } }

/-- scheduler.stop: destroy the cron job when present, clear it, and
mark not running. -/
def stop (s : SchedulerState) : SchedulerState :=
  match s.cronJob with
  | some _ => { isRunning := false, cronJob := none }
  | none => { s with isRunning := false }

/-- Platform posting limits (socialMediaService.getPlatformLimits);
a field is none when the limits object of the platform omits it, and
every field is none for an unknown platform (limits[platform] || {}). -/
structure PlatformLimits where
  textLimit : Option Nat := none
  mediaLimit : Option Nat := none
  hashtagLimit : Option Nat := none
deriving DecidableEq

/-- socialMediaService.getPlatformLimits. -/
def getPlatformLimits (platform : String) : PlatformLimits :=
  if platform == "twitter" then
    { textLimit := some 280, mediaLimit := some 4, hashtagLimit := some 2 }
  else if platform == "linkedin" then
    { textLimit := some 3000, mediaLimit := some 1, hashtagLimit := some 5 }
  else if platform == "instagram" then
    { textLimit := some 2200, mediaLimit := some 10, hashtagLimit := some 30 }
  else {}

/-- Content object passed to validateContent; none models an absent
(undefined) field.  For the text field the empty string is falsy in the
source conditional, so it is checked separately. -/
structure ValidationContent where
  text : Option String := none
  hashtags : Option (List String) := none
  media : Option (List String) := none
deriving DecidableEq

/-- Result of socialMediaService.validateContent. -/
structure ValidationResult where
  isValid : Bool
  errors : List String
deriving DecidableEq

/-- socialMediaService.validateContent: each limit check fires only when
the limit exists, the content field is truthy, and the length exceeds
the limit. -/
def validateContent (platform : String) (content : ValidationContent) :
    ValidationResult :=
  let limits := getPlatformLimits platform
  let errors : List String := []
  let errors :=
    match limits.textLimit, content.text with
    | some tl, some t =>
        if !(t == "") && decide (t.length > tl) then
          errors ++ ["Text exceeds " ++ platform ++ " limit of "
            ++ toString tl ++ " characters"]
        else errors
    | _, _ => errors
  let errors :=
    match limits.hashtagLimit, content.hashtags with
    | some hl, some hs =>
        if decide (hs.length > hl) then
          errors ++ ["Too many hashtags for " ++ platform ++ " (max: "
            ++ toString hl ++ ")"]
        else errors
    | _, _ => errors
  let errors :=
    match limits.mediaLimit, content.media with
    | some ml, some ms =>
        if decide (ms.length > ml) then
          errors ++ ["Too many media items for " ++ platform ++ " (max: "
            ++ toString ml ++ ")"]
        else errors
    | _, _ => errors
  { isValid := errors.isEmpty, errors := errors }

/-- Body of a PUT /api/posts/:id request; none models an absent field. -/
structure UpdateRequest where
  content : Option String := none
  platforms : Option (List String) := none
  scheduledAt : Option Int := none
  status : Option String := none
deriving DecidableEq

/-- Outcome of a route handler: the HTTP status code and message sent. -/
inductive ApiResult where
  | ok (code : Nat) (message : String)
  | error (code : Nat) (message : String)
deriving DecidableEq

/-- The platform names accepted by the route validators. -/
def allowedPlatforms : List String := ["twitter", "linkedin", "instagram"]

/-- The status strings accepted by the PUT route validator. -/
def allowedStatusStrings : List String := ["draft", "scheduled", "published"]

/-- JavaScript truthiness of an optional string (undefined and the
empty string are falsy). -/
def truthyStr : Option String → Bool
  | none => false
  | some s => !(s == "")

/-- The express-validator chain of the PUT route: content, when
present, nonempty; platforms, when present, a nonempty array over the
allowed names; status, when present, among the allowed strings. -/
def updateValidationOk (r : UpdateRequest) : Bool :=
  (match r.content with
   | some c => !(c == "")
   | none => true)
  && (match r.platforms with
      | some ps => decide (1 ≤ ps.length)
          && ps.all (fun p => allowedPlatforms.contains p)
      | none => true)
  && (match r.status with
      | some st => allowedStatusStrings.contains st
      | none => true)

/-- The update document built by the PUT handler and applied by
Post.findByIdAndUpdate. -/
def applyUpdates (p : Post) (contentText : Option String)
    (platforms : Option (List String)) (scheduledAt : Option Int)
    (status : Option String) : Post :=
  { p with
    content :=
      match contentText with
      | some t => { p.content with text := t }
      | none => p.content
    platforms := platforms.getD p.platforms
    scheduledAt := scheduledAt.getD p.scheduledAt
    status := status.getD p.status }

/-- The Post.findOne lookup by post id and requesting user id used by
the PUT and DELETE routes. -/
def findUserPost (store : List Post) (reqUserId : Nat) (postId : Nat) :
    Option Post :=
  store.find? (fun p => p.id == postId && p.userId.id == reqUserId)

/-- PUT /api/posts/:id: validate the body, find the post of the
requesting user, refuse to edit a published post, validate updated
content against each target platform, then apply the updates.  Returns
the response and the new store. -/
def putPostHandler (store : List Post) (reqUserId : Nat) (postId : Nat)
    (r : UpdateRequest) : ApiResult × List Post :=
  if !(updateValidationOk r) then
    (ApiResult.error 400 "Validation failed", store)
  else
    match findUserPost store reqUserId postId with
    | none => (ApiResult.error 404 "Post not found", store)
    | some post =>
      if post.status == "posted" then
        (ApiResult.error 400 "Cannot edit published posts", store)
      else
        let contentUpdate := if truthyStr r.content then r.content else none
        let platformsUpdate := r.platforms
        let checkNeeded := contentUpdate.isSome || platformsUpdate.isSome
        let contentToValidate := contentUpdate.getD post.content.text
        let platformsToValidate := platformsUpdate.getD post.platforms
        let failed := checkNeeded && platformsToValidate.any (fun pl =>
          !(validateContent pl { text := some contentToValidate }).isValid)
        if failed then
          (ApiResult.error 400 "Content validation failed", store)
        else
          (ApiResult.ok 200 "Post updated successfully",
           store.map (fun p =>
             if p.id == postId then
               applyUpdates p contentUpdate platformsUpdate r.scheduledAt r.status
             else p))

/-- DELETE /api/posts/:id: find the post of the requesting user, refuse
to delete a published post, otherwise remove it from the store. -/
def deletePostHandler (store : List Post) (reqUserId : Nat) (postId : Nat) :
    ApiResult × List Post :=
  match findUserPost store reqUserId postId with
  | none => (ApiResult.error 404 "Post not found", store)
  | some post =>
    if post.status == "posted" then
      (ApiResult.error 400 "Cannot delete published posts", store)
    else
      (ApiResult.ok 200 "Post deleted successfully",
       store.filter (fun p => !(p.id == postId)))

/-! ### Specification layer for publishPost -/

/-- The PlatformResult that one attempt at a platform appends. -/
def attemptResult (svc : Publisher) (now : Int) (post : Post)
    (platform : String) : PlatformResult :=
  match publishToPlatform svc post platform with
  | Except.ok r =>
      { platform := platform
        postId := some r.postId
        url := some r.url
        success := true
        postedAt := now }
  | Except.error msg =>
      { platform := platform
        success := false
        error := some msg
        postedAt := now }

/-- Whether the attempt at a platform succeeds. -/
def isOkAttempt (svc : Publisher) (post : Post) (platform : String) : Bool :=
  match publishToPlatform svc post platform with
  | Except.ok _ => true
  | Except.error _ => false

/-- The post as persisted at the start of a publishPost run. -/
def postingState (now : Int) (post : Post) : Post :=
  { post with status := "posting", lastAttempt := some now }

/-- The loop state reached by the platform loop of publishPost. -/
def loopOf (svc : Publisher) (logOk : String → Bool) (now : Int)
    (post : Post) : LoopState :=
  publishLoop svc logOk now
    { post := postingState now post
      successCount := 0
      failureCount := 0
      logs := []
      events := [SchedEvent.save (postingState now post)] } post.platforms

/-- Number of platform attempts of the dispatch that succeed. -/
def succCount (svc : Publisher) (post : Post) : Nat :=
  post.platforms.countP (fun pl => isOkAttempt svc post pl)

/-- Number of platform attempts of the dispatch that fail. -/
def failCount (svc : Publisher) (post : Post) : Nat :=
  post.platforms.countP (fun pl => !(isOkAttempt svc post pl))

/-- The post after the platform loop, before the status policy. -/
def dispatchedPost (svc : Publisher) (now : Int) (post : Post) : Post :=
  { postingState now post with results :=
      post.results ++ post.platforms.map (attemptResult svc now post) }

/-- The final persisted post of a publishPost run, in closed form. -/
def finalPostSpec (svc : Publisher) (now : Int) (post : Post) : Post :=
  let base := dispatchedPost svc now post
  if 0 < succCount svc post ∧ failCount svc post = 0 then
    { base with status := "posted" }
  else if 0 < succCount svc post ∧ 0 < failCount svc post then
    { base with status := "posted" }
  else
    let p : Post := { base with
                      status := "failed"
                      retryCount := base.retryCount + 1 }
    if p.retryCount < 3 then
      { p with status := "scheduled", scheduledAt := now + 15 * 60 * 1000 }
    else p

/-- The store contents after a prefix of the event trace: the post as
left by the last save event, starting from the pre-dispatch post. -/
def storeAfter (init : Post) (evs : List SchedEvent) : Post :=
  evs.foldl
    (fun cur e =>
      match e with
      | SchedEvent.save p => p
      | SchedEvent.attempt _ => cur) init

/-! ### Concrete instances used by witnesses and counterexamples -/

/-- Concrete owner with a connected twitter account. -/
def wUser : User :=
  { id := 1
    connectedAccounts := [("twitter", { accessToken := "tok", username := "alice" })] }

/-- Concrete two-platform post of that owner. -/
def wPost : Post :=
  { id := 7
    userId := wUser
    content := { text := "hello" }
    platforms := ["twitter", "linkedin"]
    scheduledAt := 0
    status := "scheduled"
    retryCount := 0 }

/-- Publisher that succeeds on twitter and fails elsewhere. -/
def wSvc : Publisher := fun pl _ _ =>
  if pl == "twitter" then Except.ok { postId := "t1", url := "url-t1" }
  else Except.error ("rate limited")

/-- Publisher that always fails. -/
def failSvc : Publisher := fun _ _ _ => Except.error ("network down")

/-- Post about to exhaust its retries (retryCount 2). -/
def exhaustPost : Post :=
  { id := 8
    userId := wUser
    content := { text := "hello" }
    platforms := ["twitter"]
    scheduledAt := 0
    status := "scheduled"
    retryCount := 2 }

/-- Post with no target platforms. -/
def emptyPost : Post :=
  { id := 9
    userId := wUser
    content := { text := "hello" }
    platforms := []
    scheduledAt := 0
    status := "scheduled"
    retryCount := 0 }

/-- Owner without any connected accounts. -/
def bareUser : User := { id := 3, connectedAccounts := [] }

/-- Due scheduled post of the bare owner. -/
def cPost : Post :=
  { id := 42
    userId := bareUser
    content := { text := "hi" }
    platforms := ["twitter"]
    scheduledAt := 0
    status := "scheduled"
    retryCount := 0 }

/-- A stored post that has already been published. -/
def postedPost : Post :=
  { id := 5
    userId := bareUser
    content := { text := "done" }
    platforms := ["twitter"]
    scheduledAt := 0
    status := "posted"
    retryCount := 0 }

/-- Content used in the unknown-platform validation witness. -/
def wContent : ValidationContent :=
  { text := some ("hello world")
    hashtags := some ["a", "b", "c"]
    media := some [] }

/-- publishToPlatform only reads the owner, content and media of the
post, so it is unchanged by a results update. -/
theorem publishToPlatform_results_irrel (svc : Publisher) (p : Post)
    (rs : List PlatformResult) :
    publishToPlatform svc { p with results := rs } = publishToPlatform svc p :=
  rfl

/-- attemptResult is unchanged by a results update of the post. -/
theorem attemptResult_results_irrel (svc : Publisher) (now : Int) (p : Post)
    (rs : List PlatformResult) :
    attemptResult svc now { p with results := rs } = attemptResult svc now p :=
  rfl

/-- isOkAttempt is unchanged by a results update of the post. -/
theorem isOkAttempt_results_irrel (svc : Publisher) (p : Post)
    (rs : List PlatformResult) :
    isOkAttempt svc { p with results := rs } = isOkAttempt svc p :=
  rfl

/-- attemptResult is unchanged by the status / lastAttempt update that
publishPost performs before the platform loop. -/
theorem attemptResult_posting_irrel (svc : Publisher) (now : Int) (p : Post)
    (st : String) (la : Option Int) :
    attemptResult svc now { p with status := st, lastAttempt := la }
      = attemptResult svc now p :=
  rfl

/-- isOkAttempt is unchanged by the status / lastAttempt update. -/
theorem isOkAttempt_posting_irrel (svc : Publisher) (p : Post)
    (st : String) (la : Option Int) :
    isOkAttempt svc { p with status := st, lastAttempt := la }
      = isOkAttempt svc p :=
  rfl

/-- Closed form of the per-platform loop: the loop appends exactly one
result per platform, counts successes and failures, and emits one
attempt event per platform; nothing else of the post changes and the
counts do not depend on the audit-log outcomes. -/
theorem publishLoop_spec (svc : Publisher) (logOk : String → Bool) (now : Int)
    (pls : List String) : ∀ st : LoopState,
    (publishLoop svc logOk now st pls).post =
      { st.post with results :=
          st.post.results ++ pls.map (attemptResult svc now st.post) } ∧
    (publishLoop svc logOk now st pls).successCount =
      st.successCount + pls.countP (fun pl => isOkAttempt svc st.post pl) ∧
    (publishLoop svc logOk now st pls).failureCount =
      st.failureCount + pls.countP (fun pl => !(isOkAttempt svc st.post pl)) ∧
    (publishLoop svc logOk now st pls).events =
      st.events ++ pls.map SchedEvent.attempt := by
  induction pls with
  | nil => intro st; simp [publishLoop]
  | cons pl rest ih =>
    intro st
    cases hpub : publishToPlatform svc st.post pl with
    | ok r =>
      have hres : attemptResult svc now st.post pl =
          { platform := pl
            postId := some r.postId
            url := some r.url
            success := true
            postedAt := now } := by
        simp [attemptResult, hpub]
      have hok : isOkAttempt svc st.post pl = true := by
        simp [isOkAttempt, hpub]
      simp only [publishLoop, hpub]
      obtain ⟨ih1, ih2, ih3, ih4⟩ := ih _
      refine ⟨?_, ?_, ?_, ?_⟩
      · rw [ih1]
        simp [attemptResult_results_irrel, hres, List.append_assoc]
      · rw [ih2]
        simp [isOkAttempt_results_irrel, List.countP_cons, hok]
        omega
      · rw [ih3]
        simp [isOkAttempt_results_irrel, List.countP_cons, hok]
      · rw [ih4]
        simp [List.append_assoc]
    | error msg =>
      have hres : attemptResult svc now st.post pl =
          { platform := pl
            success := false
            error := some msg
            postedAt := now } := by
        simp [attemptResult, hpub]
      have hok : isOkAttempt svc st.post pl = false := by
        simp [isOkAttempt, hpub]
      simp only [publishLoop, hpub]
      obtain ⟨ih1, ih2, ih3, ih4⟩ := ih _
      refine ⟨?_, ?_, ?_, ?_⟩
      · rw [ih1]
        simp [attemptResult_results_irrel, hres, List.append_assoc]
      · rw [ih2]
        simp [isOkAttempt_results_irrel, List.countP_cons, hok]
      · rw [ih3]
        simp [isOkAttempt_results_irrel, List.countP_cons, hok]
        omega
      · rw [ih4]
        simp [List.append_assoc]

/-- The post component of the loop state, in closed form. -/
theorem loopOf_post (svc : Publisher) (logOk : String → Bool) (now : Int)
    (post : Post) :
    (loopOf svc logOk now post).post = dispatchedPost svc now post :=
  (publishLoop_spec svc logOk now post.platforms _).1

/-- The success count of the loop state, in closed form. -/
theorem loopOf_succ (svc : Publisher) (logOk : String → Bool) (now : Int)
    (post : Post) :
    (loopOf svc logOk now post).successCount = succCount svc post :=
  Eq.trans (publishLoop_spec svc logOk now post.platforms
    { post := postingState now post
      successCount := 0
      failureCount := 0
      logs := []
      events := [SchedEvent.save (postingState now post)] }).2.1
    (Nat.zero_add _)

/-- The failure count of the loop state, in closed form. -/
theorem loopOf_fail (svc : Publisher) (logOk : String → Bool) (now : Int)
    (post : Post) :
    (loopOf svc logOk now post).failureCount = failCount svc post :=
  Eq.trans (publishLoop_spec svc logOk now post.platforms
    { post := postingState now post
      successCount := 0
      failureCount := 0
      logs := []
      events := [SchedEvent.save (postingState now post)] }).2.2.1
    (Nat.zero_add _)

/-- The event list of the loop state, in closed form. -/
theorem loopOf_events (svc : Publisher) (logOk : String → Bool) (now : Int)
    (post : Post) :
    (loopOf svc logOk now post).events =
      SchedEvent.save (postingState now post)
        :: post.platforms.map SchedEvent.attempt :=
  (publishLoop_spec svc logOk now post.platforms _).2.2.2

/-- The run of publishPost, decomposed through the loop state. -/
theorem publishPost_run (svc : Publisher) (logOk : String → Bool) (now : Int)
    (post : Post) :
    publishPost svc logOk now post =
      { finalPost := applyStatusPolicy now (loopOf svc logOk now post)
        logs := (loopOf svc logOk now post).logs
        events := (loopOf svc logOk now post).events ++
          [SchedEvent.save (applyStatusPolicy now (loopOf svc logOk now post))] } :=
  rfl

/-- publishPost computes finalPostSpec. -/
theorem publishPost_finalPost (svc : Publisher) (logOk : String → Bool)
    (now : Int) (post : Post) :
    (publishPost svc logOk now post).finalPost = finalPostSpec svc now post := by
  rw [publishPost_run]
  show applyStatusPolicy now (loopOf svc logOk now post) = _
  unfold applyStatusPolicy finalPostSpec
  rw [loopOf_post, loopOf_succ, loopOf_fail]

/-- The event trace of a publishPost run: one save of the posting
state, one attempt per platform, one save of the final state. -/
theorem publishPost_events (svc : Publisher) (logOk : String → Bool)
    (now : Int) (post : Post) :
    (publishPost svc logOk now post).events =
      SchedEvent.save (postingState now post) ::
        (post.platforms.map SchedEvent.attempt
          ++ [SchedEvent.save (publishPost svc logOk now post).finalPost]) := by
  rw [publishPost_run]
  show (loopOf svc logOk now post).events ++ _ = _
  rw [loopOf_events]
  simp

/-- The platform field of an attempt record is the attempted platform. -/
theorem attemptResult_platform (svc : Publisher) (now : Int) (post : Post)
    (pl : String) : (attemptResult svc now post pl).platform = pl := by
  unfold attemptResult
  cases publishToPlatform svc post pl <;> rfl

/-- When at least one platform succeeds, the policy gives posted and
changes nothing else of the dispatched post. -/
theorem finalPostSpec_of_success (svc : Publisher) (now : Int) (post : Post)
    (h : 0 < succCount svc post) :
    finalPostSpec svc now post =
      { dispatchedPost svc now post with status := "posted" } := by
  unfold finalPostSpec
  rcases Nat.eq_zero_or_pos (failCount svc post) with hf | hf
  · rw [if_pos ⟨h, hf⟩]
  · rw [if_neg (by rintro ⟨-, h2⟩; omega), if_pos ⟨h, hf⟩]

/-- When no platform succeeds, the policy bumps retryCount and either
reschedules fifteen minutes later or leaves the post failed. -/
theorem finalPostSpec_of_no_success (svc : Publisher) (now : Int) (post : Post)
    (h : succCount svc post = 0) :
    finalPostSpec svc now post =
      if post.retryCount + 1 < 3 then
        { dispatchedPost svc now post with
          status := "scheduled"
          retryCount := post.retryCount + 1
          scheduledAt := now + 15 * 60 * 1000 }
      else
        { dispatchedPost svc now post with
          status := "failed"
          retryCount := post.retryCount + 1 } := by
  unfold finalPostSpec
  rw [if_neg (by rintro ⟨h1, -⟩; omega), if_neg (by rintro ⟨h1, -⟩; omega)]
  rfl

/-- The results of the final post: the prior results plus exactly one
record per target platform, in platform order, whatever the policy
branch taken. -/
theorem publishPost_results (svc : Publisher) (logOk : String → Bool)
    (now : Int) (post : Post) :
    (publishPost svc logOk now post).finalPost.results =
      post.results ++ post.platforms.map (attemptResult svc now post) := by
  rw [publishPost_finalPost]
  rcases Nat.eq_zero_or_pos (succCount svc post) with hs | hs
  · rw [finalPostSpec_of_no_success svc now post hs]
    split_ifs <;> rfl
  · rw [finalPostSpec_of_success svc now post hs]
    rfl

/-- The final post keeps the owner, content, platforms and id. -/
theorem publishPost_frame (svc : Publisher) (logOk : String → Bool)
    (now : Int) (post : Post) :
    (publishPost svc logOk now post).finalPost.id = post.id ∧
    (publishPost svc logOk now post).finalPost.userId = post.userId ∧
    (publishPost svc logOk now post).finalPost.platforms = post.platforms ∧
    (publishPost svc logOk now post).finalPost.lastAttempt = some now := by
  rw [publishPost_finalPost]
  rcases Nat.eq_zero_or_pos (succCount svc post) with hs | hs
  · rw [finalPostSpec_of_no_success svc now post hs]
    split_ifs <;> exact ⟨rfl, rfl, rfl, rfl⟩
  · rw [finalPostSpec_of_success svc now post hs]
    exact ⟨rfl, rfl, rfl, rfl⟩

/-- Attempt events do not change the store. -/
theorem storeAfter_attempts (p : Post) (l : List String) :
    storeAfter p (l.map SchedEvent.attempt) = p := by
  induction l with
  | nil => rfl
  | cons x xs ih => exact ih

/-! ### Claim theorems -/

/-- Claim C1: for every post dispatched by publishPost whose platform
attempts yield at least one success, regardless of how many platforms
failed, the final persisted status is posted, retryCount is unchanged,
and exactly one PlatformResult (one per target platform, success or
failure) was appended to results during the dispatch. -/
theorem claim1_any_success_posted (svc : Publisher) (logOk : String → Bool)
    (now : Int) (post : Post)
    (h : ∃ pl ∈ post.platforms, isOkAttempt svc post pl = true) :
    (publishPost svc logOk now post).finalPost.status = "posted" ∧
    (publishPost svc logOk now post).finalPost.retryCount = post.retryCount ∧
    (publishPost svc logOk now post).finalPost.results =
      post.results ++ post.platforms.map (attemptResult svc now post) ∧
    ((publishPost svc logOk now post).finalPost.results.drop
      post.results.length).map (fun r => r.platform) = post.platforms := by
  have hs : 0 < succCount svc post := by
    rw [succCount]
    exact List.countP_pos_iff.mpr (by simpa using h)
  refine ⟨?_, ?_, publishPost_results svc logOk now post, ?_⟩
  · rw [publishPost_finalPost, finalPostSpec_of_success svc now post hs]
  · rw [publishPost_finalPost, finalPostSpec_of_success svc now post hs]
    rfl
  · rw [publishPost_results, List.drop_left, List.map_map]
    have hf : ((fun r => r.platform) ∘ attemptResult svc now post) =
        fun pl => pl :=
      funext fun pl => attemptResult_platform svc now post pl
    rw [hf]
    exact List.map_id _

/-- Witness for claim C1: a concrete two-platform post where twitter
succeeds and linkedin fails. -/
theorem claim1_any_success_posted_witness :
    (∃ pl ∈ wPost.platforms, isOkAttempt wSvc wPost pl = true) ∧
    ((publishPost wSvc (fun _ => true) 0 wPost).finalPost.status = "posted" ∧
     (publishPost wSvc (fun _ => true) 0 wPost).finalPost.retryCount =
       wPost.retryCount ∧
     (publishPost wSvc (fun _ => true) 0 wPost).finalPost.results =
       wPost.results ++ wPost.platforms.map (attemptResult wSvc 0 wPost) ∧
     ((publishPost wSvc (fun _ => true) 0 wPost).finalPost.results.drop
       wPost.results.length).map (fun r => r.platform) = wPost.platforms) :=
  ⟨by decide, claim1_any_success_posted wSvc (fun _ => true) 0 wPost (by decide)⟩

/-- Claim C2: when every platform attempt fails, retryCount is bumped
by one; below three retries the post is rescheduled fifteen minutes
later, otherwise it becomes failed and the due-post query never selects
it again. -/
theorem claim2_all_fail (svc : Publisher) (logOk : String → Bool)
    (now : Int) (post : Post)
    (h : ∀ pl ∈ post.platforms, isOkAttempt svc post pl = false) :
    (publishPost svc logOk now post).finalPost.retryCount =
      post.retryCount + 1 ∧
    (post.retryCount + 1 < 3 →
      (publishPost svc logOk now post).finalPost.status = "scheduled" ∧
      (publishPost svc logOk now post).finalPost.scheduledAt =
        now + 15 * 60 * 1000) ∧
    (¬ (post.retryCount + 1 < 3) →
      (publishPost svc logOk now post).finalPost.status = "failed" ∧
      ∀ t : Int, isDuePost t (publishPost svc logOk now post).finalPost = false) := by
  have hs : succCount svc post = 0 := by
    rw [succCount]
    exact List.countP_eq_zero.mpr (by simpa using h)
  rw [publishPost_finalPost, finalPostSpec_of_no_success svc now post hs]
  by_cases hr : post.retryCount + 1 < 3
  · rw [if_pos hr]
    exact ⟨rfl, fun _ => ⟨rfl, rfl⟩, fun hc => absurd hr hc⟩
  · rw [if_neg hr]
    refine ⟨rfl, fun hc => absurd hc hr, fun _ => ⟨rfl, fun t => ?_⟩⟩
    simp [isDuePost]

/-- Witness for claim C2: a post with retryCount 2 whose single
platform attempt fails reaches the terminal failed state. -/
theorem claim2_all_fail_witness :
    (∀ pl ∈ exhaustPost.platforms, isOkAttempt failSvc exhaustPost pl = false) ∧
    ((publishPost failSvc (fun _ => true) 0 exhaustPost).finalPost.retryCount =
      exhaustPost.retryCount + 1 ∧
    (exhaustPost.retryCount + 1 < 3 →
      (publishPost failSvc (fun _ => true) 0 exhaustPost).finalPost.status =
        "scheduled" ∧
      (publishPost failSvc (fun _ => true) 0 exhaustPost).finalPost.scheduledAt =
        0 + 15 * 60 * 1000) ∧
    (¬ (exhaustPost.retryCount + 1 < 3) →
      (publishPost failSvc (fun _ => true) 0 exhaustPost).finalPost.status =
        "failed" ∧
      ∀ t : Int, isDuePost t
        (publishPost failSvc (fun _ => true) 0 exhaustPost).finalPost = false)) :=
  ⟨by decide, claim2_all_fail failSvc (fun _ => true) 0 exhaustPost (by decide)⟩

/-- Claim C10: a post with an empty target-platform list makes no
platform attempt and appends no result, yet is processed under the
zero-success branch: retryCount is bumped and the post rescheduled
fifteen minutes later, or marked failed once retryCount reaches 3. -/
theorem claim10_empty_platforms (svc : Publisher) (logOk : String → Bool)
    (now : Int) (post : Post) (h : post.platforms = []) :
    (publishPost svc logOk now post).finalPost.results = post.results ∧
    (publishPost svc logOk now post).events =
      [SchedEvent.save (postingState now post),
       SchedEvent.save (publishPost svc logOk now post).finalPost] ∧
    (publishPost svc logOk now post).finalPost.retryCount =
      post.retryCount + 1 ∧
    (post.retryCount + 1 < 3 →
      (publishPost svc logOk now post).finalPost.status = "scheduled" ∧
      (publishPost svc logOk now post).finalPost.scheduledAt =
        now + 15 * 60 * 1000) ∧
    (¬ (post.retryCount + 1 < 3) →
      (publishPost svc logOk now post).finalPost.status = "failed") := by
  have hs : succCount svc post = 0 := by
    rw [succCount, h]
    rfl
  refine ⟨?_, ?_, ?_⟩
  · rw [publishPost_results, h]
    simp
  · rw [publishPost_events, h]
    rfl
  · rw [publishPost_finalPost, finalPostSpec_of_no_success svc now post hs]
    by_cases hr : post.retryCount + 1 < 3
    · rw [if_pos hr]
      exact ⟨rfl, fun _ => ⟨rfl, rfl⟩, fun hc => absurd hr hc⟩
    · rw [if_neg hr]
      exact ⟨rfl, fun hc => absurd hc hr, fun _ => rfl⟩

/-- Witness for claim C10: a concrete post without target platforms is
rescheduled with retryCount 1. -/
theorem claim10_empty_platforms_witness :
    emptyPost.platforms = [] ∧
    ((publishPost failSvc (fun _ => true) 0 emptyPost).finalPost.results =
      emptyPost.results ∧
    (publishPost failSvc (fun _ => true) 0 emptyPost).events =
      [SchedEvent.save (postingState 0 emptyPost),
       SchedEvent.save (publishPost failSvc (fun _ => true) 0 emptyPost).finalPost] ∧
    (publishPost failSvc (fun _ => true) 0 emptyPost).finalPost.retryCount =
      emptyPost.retryCount + 1 ∧
    (emptyPost.retryCount + 1 < 3 →
      (publishPost failSvc (fun _ => true) 0 emptyPost).finalPost.status =
        "scheduled" ∧
      (publishPost failSvc (fun _ => true) 0 emptyPost).finalPost.scheduledAt =
        0 + 15 * 60 * 1000) ∧
    (¬ (emptyPost.retryCount + 1 < 3) →
      (publishPost failSvc (fun _ => true) 0 emptyPost).finalPost.status =
        "failed")) :=
  ⟨rfl, claim10_empty_platforms failSvc (fun _ => true) 0 emptyPost rfl⟩

/-- Claim C4: for a target platform whose owner has no connected
account, publishPost records a failure result whose error mentions that
the account is not connected, does not propagate an exception, and
still attempts every other platform of the post. -/
theorem claim4_missing_account (svc : Publisher) (logOk : String → Bool)
    (now : Int) (post : Post) (pl : String)
    (hmem : pl ∈ post.platforms)
    (hacc : post.userId.connectedAccounts.lookup pl = none) :
    publishToPlatform svc post pl =
      Except.error (pl ++ " account not connected for user") ∧
    attemptResult svc now post pl =
      { platform := pl
        success := false
        error := some (pl ++ " account not connected for user")
        postedAt := now } ∧
    ({ platform := pl
       success := false
       error := some (pl ++ " account not connected for user")
       postedAt := now : PlatformResult })
      ∈ (publishPost svc logOk now post).finalPost.results ∧
    "account not connected".data <:+:
      (pl ++ " account not connected for user").data ∧
    (publishPost svc logOk now post).finalPost.results =
      post.results ++ post.platforms.map (attemptResult svc now post) ∧
    (∀ q ∈ post.platforms,
      SchedEvent.attempt q ∈ (publishPost svc logOk now post).events) := by
  have h1 : publishToPlatform svc post pl =
      Except.error (pl ++ " account not connected for user") := by
    unfold publishToPlatform
    rw [hacc]
  have h2 : attemptResult svc now post pl =
      { platform := pl
        success := false
        error := some (pl ++ " account not connected for user")
        postedAt := now } := by
    unfold attemptResult
    rw [h1]
  refine ⟨h1, h2, ?_, ?_, publishPost_results svc logOk now post, ?_⟩
  · rw [publishPost_results]
    refine List.mem_append_right _ ?_
    rw [← h2]
    exact List.mem_map_of_mem _ hmem
  · have hsuf : " account not connected for user".data <:+
        (pl ++ " account not connected for user").data := by
      rw [String.data_append]
      exact List.suffix_append _ _
    exact List.IsInfix.trans (by decide) hsuf.isInfix
  · intro q hq
    rw [publishPost_events]
    refine List.mem_cons_of_mem _ (List.mem_append_left _ ?_)
    exact List.mem_map_of_mem _ hq

/-- Witness for claim C4: the bare owner targets twitter without a
connected twitter account. -/
theorem claim4_missing_account_witness :
    "twitter" ∈ cPost.platforms ∧
    cPost.userId.connectedAccounts.lookup ("twitter") = none ∧
    (publishToPlatform wSvc cPost ("twitter") =
      Except.error ("twitter" ++ " account not connected for user") ∧
    attemptResult wSvc 0 cPost ("twitter") =
      { platform := "twitter"
        success := false
        error := some ("twitter" ++ " account not connected for user")
        postedAt := 0 } ∧
    ({ platform := "twitter"
       success := false
       error := some ("twitter" ++ " account not connected for user")
       postedAt := 0 : PlatformResult })
      ∈ (publishPost wSvc (fun _ => true) 0 cPost).finalPost.results ∧
    "account not connected".data <:+:
      ("twitter" ++ " account not connected for user").data ∧
    (publishPost wSvc (fun _ => true) 0 cPost).finalPost.results =
      cPost.results ++ cPost.platforms.map (attemptResult wSvc 0 cPost) ∧
    (∀ q ∈ cPost.platforms,
      SchedEvent.attempt q ∈ (publishPost wSvc (fun _ => true) 0 cPost).events)) :=
  ⟨by decide, rfl,
    claim4_missing_account wSvc (fun _ => true) 0 cPost ("twitter") (by decide) rfl⟩

/-- Claim C5: a failed audit-log write is caught inside
logPublishAttempt (it persists nothing but never throws), and the final
post of publishPost does not depend on which log writes succeed: the
results are appended and the status policy applied as if the log write
had succeeded. -/
theorem claim5_log_write_harmless (svc : Publisher) (now : Int) (post : Post)
    (logOk logOk' : String → Bool) :
    (publishPost svc logOk now post).finalPost =
      (publishPost svc logOk' now post).finalPost ∧
    (publishPost svc logOk now post).finalPost.results =
      post.results ++ post.platforms.map (attemptResult svc now post) ∧
    (∀ entry : SchedulerLogEntry, logPublishAttempt false entry = []) ∧
    (∀ entry : SchedulerLogEntry, logPublishAttempt true entry = [entry]) := by
  refine ⟨?_, publishPost_results svc logOk now post, fun _ => rfl, fun _ => rfl⟩
  rw [publishPost_finalPost, publishPost_finalPost]

/-- Claim C6: publishPost persists the post with status posting and
lastAttempt now strictly before any platform attempt: the first event
is that save, and after any prefix of the trace that ends inside the
platform attempts the store holds the posting state, never a post with
status scheduled. -/
theorem claim6_posting_persisted_first (svc : Publisher)
    (logOk : String → Bool) (now : Int) (post : Post) (k : Nat)
    (h1 : 1 ≤ k) (h2 : k ≤ 1 + post.platforms.length) :
    (publishPost svc logOk now post).events =
      SchedEvent.save (postingState now post) ::
        (post.platforms.map SchedEvent.attempt
          ++ [SchedEvent.save (publishPost svc logOk now post).finalPost]) ∧
    storeAfter post ((publishPost svc logOk now post).events.take k) =
      postingState now post ∧
    (storeAfter post ((publishPost svc logOk now post).events.take k)).status =
      "posting" ∧
    (storeAfter post ((publishPost svc logOk now post).events.take k)).lastAttempt =
      some now := by
  obtain ⟨j, rfl⟩ : ∃ j, k = j + 1 := ⟨k - 1, by omega⟩
  have hj : j ≤ (post.platforms.map SchedEvent.attempt).length := by
    rw [List.length_map]
    omega
  have hstore : storeAfter post
      ((publishPost svc logOk now post).events.take (j + 1)) =
      postingState now post := by
    rw [publishPost_events, List.take_succ_cons,
        List.take_append_of_le_length hj]
    show storeAfter (postingState now post)
      ((post.platforms.map SchedEvent.attempt).take j) = postingState now post
    rw [← List.map_take]
    exact storeAfter_attempts _ _
  exact ⟨publishPost_events svc logOk now post, hstore,
    by rw [hstore]; rfl, by rw [hstore]; rfl⟩

/-- Witness for claim C6: the store right after the first event of a
concrete run holds the posting state. -/
theorem claim6_posting_persisted_first_witness :
    (1 ≤ 1 ∧ 1 ≤ 1 + wPost.platforms.length) ∧
    ((publishPost wSvc (fun _ => true) 0 wPost).events =
      SchedEvent.save (postingState 0 wPost) ::
        (wPost.platforms.map SchedEvent.attempt
          ++ [SchedEvent.save (publishPost wSvc (fun _ => true) 0 wPost).finalPost]) ∧
    storeAfter wPost ((publishPost wSvc (fun _ => true) 0 wPost).events.take 1) =
      postingState 0 wPost ∧
    (storeAfter wPost
      ((publishPost wSvc (fun _ => true) 0 wPost).events.take 1)).status =
      "posting" ∧
    (storeAfter wPost
      ((publishPost wSvc (fun _ => true) 0 wPost).events.take 1)).lastAttempt =
      some 0) :=
  ⟨⟨by decide, by decide⟩,
    claim6_posting_persisted_first wSvc (fun _ => true) 0 wPost 1
      (by decide) (by decide)⟩

/-- Claim C7: start and stop of the scheduling loop are idempotent, and
start while already running is a no-op. -/
theorem claim7_start_stop_idempotent (s : SchedulerState) :
    start (start s) = start s ∧
    stop (stop s) = stop s ∧
    start { s with isRunning := true } = { s with isRunning := true } := by
  refine ⟨?_, ?_, ?_⟩
  · rcases s with ⟨run, job⟩
    cases run <;> simp [start]
  · rcases s with ⟨run, job⟩
    cases job <;> simp [stop]
  · simp [start]

/-- Counterexample to claim C3: when the due-post query result
contains the same post twice, the tick dispatches that post id twice;
the loop of processScheduledPosts performs no deduplication. -/
theorem claim3_no_dedupe_cex :
    isDuePost 0 cPost = true ∧
    (dispatchedIds failSvc (fun _ => true) 0 [cPost, cPost]).count 42 = 2 ∧
    ¬ ((dispatchedIds failSvc (fun _ => true) 0 [cPost, cPost]).count 42 ≤ 1) := by
  refine ⟨by decide, ?_, ?_⟩ <;> decide

/-- Amended claim C3: within one tick every element of the list
returned by the due-post query is dispatched exactly once, in order,
with no deduplication by id, so a post id returned several times is
dispatched that many times. -/
theorem claim3_dispatch_is_query_result (svc : Publisher)
    (logOk : String → Bool) (now : Int) (store : List Post) :
    dispatchedIds svc logOk now store =
      (findPostsToPublish store now).map (fun p => p.id) := by
  unfold dispatchedIds processScheduledPosts
  rw [List.map_map]
  rfl

/-- Claim C8: a post with status posted is immutable through the posts
API: every PUT returns an error leaving the store unchanged, and every
DELETE returns the cannot-delete error leaving the store unchanged. -/
theorem claim8_posted_immutable (store : List Post) (reqUserId postId : Nat)
    (r : UpdateRequest) (post : Post)
    (hfind : findUserPost store reqUserId postId = some post)
    (hposted : post.status = "posted") :
    ((putPostHandler store reqUserId postId r).2 = store ∧
     ∃ c m, (putPostHandler store reqUserId postId r).1 = ApiResult.error c m) ∧
    ((deletePostHandler store reqUserId postId).2 = store ∧
     (deletePostHandler store reqUserId postId).1 =
       ApiResult.error 400 "Cannot delete published posts") := by
  constructor
  · by_cases hv : updateValidationOk r
    · have : putPostHandler store reqUserId postId r =
          (ApiResult.error 400 "Cannot edit published posts", store) := by
        unfold putPostHandler
        rw [hv, hfind]
        simp [hposted]
      rw [this]
      exact ⟨rfl, 400, "Cannot edit published posts", rfl⟩
    · have : putPostHandler store reqUserId postId r =
          (ApiResult.error 400 "Validation failed", store) := by
        unfold putPostHandler
        simp [hv]
      rw [this]
      exact ⟨rfl, 400, "Validation failed", rfl⟩
  · have : deletePostHandler store reqUserId postId =
        (ApiResult.error 400 "Cannot delete published posts", store) := by
      unfold deletePostHandler
      rw [hfind]
      simp [hposted]
    rw [this]
    exact ⟨rfl, rfl⟩

/-- Witness for claim C8 at a one-post store holding a posted post. -/
theorem claim8_posted_immutable_witness :
    findUserPost [postedPost] 3 5 = some postedPost ∧
    postedPost.status = "posted" ∧
    (((putPostHandler [postedPost] 3 5
        { content := some ("new text") }).2 = [postedPost] ∧
      ∃ c m, (putPostHandler [postedPost] 3 5
        { content := some ("new text") }).1 = ApiResult.error c m) ∧
     ((deletePostHandler [postedPost] 3 5).2 = [postedPost] ∧
      (deletePostHandler [postedPost] 3 5).1 =
        ApiResult.error 400 "Cannot delete published posts")) :=
  ⟨by decide, rfl,
    claim8_posted_immutable [postedPost] 3 5 { content := some ("new text") }
      postedPost (by decide) rfl⟩

/-- Claim C9: validateContent accepts any content for a platform
outside the three known ones: the limits object is empty, so no check
can fire and the result is valid with no errors. -/
theorem claim9_unknown_platform_valid (platform : String)
    (content : ValidationContent)
    (h1 : platform ≠ "twitter") (h2 : platform ≠ "linkedin")
    (h3 : platform ≠ "instagram") :
    validateContent platform content =
      { isValid := true, errors := [] } := by
  have hl : getPlatformLimits platform =
      { textLimit := none, mediaLimit := none, hashtagLimit := none } := by
    unfold getPlatformLimits
    rw [if_neg (by simpa using h1), if_neg (by simpa using h2),
        if_neg (by simpa using h3)]
  unfold validateContent
  rw [hl]
  rcases content with ⟨t, hs, ms⟩
  cases t <;> cases hs <;> cases ms <;> rfl

/-- Witness for claim C9: content that would break every twitter limit
is accepted unchanged for the unknown platform facebook. -/
theorem claim9_unknown_platform_valid_witness :
    ("facebook" ≠ "twitter" ∧ "facebook" ≠ "linkedin" ∧
     "facebook" ≠ "instagram") ∧
    validateContent ("facebook") wContent = { isValid := true, errors := [] } :=
  ⟨⟨by decide, by decide, by decide⟩,
    claim9_unknown_platform_valid ("facebook") wContent
      (by decide) (by decide) (by decide)⟩

end EchoSphere
